import Mathlib

/-!
Shallow embedding of `plotnine/geoms/geom_dotplot.py` and
`plotnine/geoms/geom_pointrange.py`.

Numeric data-frame columns are modelled as rationals, panel and group
identifiers as integers.  A pandas data frame becomes a list of rows with a
fixed schema; columns that the source code may add (`width`, `countidx`,
`stackpos`, `xmin`, `xmax`, `ymin`, `ymax`) are fields that input rows carry
with default value 0 and that the embedded functions overwrite exactly where
the source assigns the corresponding column.  Line numbers refer to the
source files.
-/

/-- The bin axis of the dot plot stat (`sp` value for `binaxis`), restricted
by `stat_bindot` to the two values the source branches on. -/
inductive Binaxis
  | x
  | y
  deriving DecidableEq

/-- Internal tag for the four recognized stacking directions of
`geom_dotplot.setup_data` (geom_dotplot.py lines 80-99). -/
inductive StackKind
  | up
  | down
  | center
  | centerwhole
  deriving DecidableEq

/-- The two user-facing warnings of `geom_dotplot.setup_data`
(geom_dotplot.py lines 61-71). -/
inductive Warning
  | positionStack
  | stackgroupsDotdensity
  deriving DecidableEq

/-- One data-frame row.  Fields are the columns the two geoms read or write. -/
structure Row where
  x : ℚ := 0
  y : ℚ := 0
  count : ℚ := 0
  binwidth : ℚ := 0
  width : ℚ := 0
  group : ℤ := 0
  PANEL : ℤ := 0
  countidx : ℚ := 0
  stackpos : ℚ := 0
  xmin : ℚ := 0
  xmax : ℚ := 0
  ymin : ℚ := 0
  ymax : ℚ := 0
  deriving DecidableEq

instance : Inhabited Row := ⟨{}⟩

/-- A data frame: rows plus whether the `width` column is present
(the membership test `width not in data` at geom_dotplot.py line 73). -/
structure DataFrame where
  hasWidth : Bool
  rows : List Row
  deriving DecidableEq

/-- The geom parameters read from `self.params` by `setup_data` and
`draw_group` of `geom_dotplot`. -/
structure GeomParams where
  position : String
  stackdir : Option String
  stackratio : ℚ
  dotsize : ℚ
  stackgroups : Bool
  deriving DecidableEq

/-- The stat parameters read from the `params` of `self._stat`. -/
structure StatParams where
  method : String
  binpositions : String
  width : Option ℚ
  binaxis : Binaxis
  deriving DecidableEq

/-- The function `np.max` (also the pandas `Series.max`) on a column; only
applied to nonempty columns by the embedded code. -/
def maxOf : List ℚ → ℚ
  | [] => 0
  | a :: l => l.foldl max a

/-- The pandas `Series.min` on a column; only applied to nonempty columns by
the embedded code. -/
def minOf : List ℚ → ℚ
  | [] => 0
  | a :: l => l.foldl min a

/-- Insertion into a sorted list, for the resolution model. -/
def insertSorted (q : ℚ) : List ℚ → List ℚ
  | [] => [q]
  | a :: l => if q ≤ a then q :: a :: l else a :: insertSorted q l

/-- Insertion sort, for the resolution model. -/
def sortRat (l : List ℚ) : List ℚ := l.foldr insertSorted []

/-- Modelled from the spec: `plotnine.utils.resolution` belongs to the
excluded surrounding framework and is not in the excerpt.  Modelled as the
smallest gap between consecutive sorted distinct values of the column, and 1
when there are fewer than two distinct values (the `zero=False` variant used
at geom_dotplot.py line 77). -/
def resolution (l : List ℚ) : ℚ :=
  match sortRat l.dedup with
  | [] => 1
  | [_] => 1
  | a :: b :: l2 => minOf (((a :: b :: l2).zip (b :: l2)).map (fun p => p.2 - p.1))

/-- Keys of a column in order of first occurrence, without repetition. -/
def uniqueKeys {K : Type} [DecidableEq K] : List K → List K
  | [] => []
  | k :: l => k :: (uniqueKeys l).filter (fun k2 => decide (k2 ≠ k))

/-- Modelled from the spec: `plotnine.utils.groupby_apply` belongs to the
excluded surrounding framework and is not in the excerpt.  Modelled as:
split the rows into groups of equal key (groups in order of first key
occurrence, each group keeping the row order of the frame), apply `f` to
every group and concatenate the results. -/
def groupby_apply {K : Type} [DecidableEq K] (rows : List Row) (key : Row → K)
    (f : List Row → List Row) : List Row :=
  ((uniqueKeys (rows.map key)).map
    (fun k => f (rows.filter (fun r => decide (key r = k))))).flatten

/-- The Python `int` conversion applied to a count: truncation toward zero. -/
def intTrunc (q : ℚ) : ℤ := if 0 ≤ q then ⌊q⌋ else -⌊-q⌋

/-- Lines 101-106 of geom_dotplot.py: the index list built from
`enumerate` over the count column followed by `iloc` replaces every row by
`int(count)` copies of itself. -/
def replicateRows (rows : List Row) : List Row :=
  rows.flatMap (fun r => List.replicate (intTrunc r.count).toNat r)

/-- Lines 61-71 of geom_dotplot.py: the warnings issued for nonsensical
parameter combinations. -/
def warningsOf (gp : GeomParams) (sp : StatParams) : List Warning :=
  (if gp.position = "stack" then [Warning.positionStack] else []) ++
    (if gp.stackgroups = true ∧ sp.method = "dotdensity" ∧ sp.binpositions = "bygroup"
      then [Warning.stackgroupsDotdensity] else [])

/-- Lines 80-99 of geom_dotplot.py: the stack-function tag and the stack-axis
range selected from the stackdir parameter; `none` when the stackdir is
unrecognized (the source then leaves `stackdots`, `stackaxismin` and
`stackaxismax` undefined and raises at their first use). -/
def stackInfo : Option String → Option (StackKind × ℚ × ℚ)
  | Option.none => some (StackKind.up, 0, 1)
  | some s =>
    if s = "up" then some (StackKind.up, 0, 1)
    else if s = "down" then some (StackKind.down, -1, 0)
    else if s = "center" then some (StackKind.center, -(1/2), 1/2)
    else if s = "centerwhole" then some (StackKind.centerwhole, -(1/2), 1/2)
    else Option.none

/-- Lines 73-77 of geom_dotplot.py: add the `width` column when it is absent,
from the width parameter of the stat when that is truthy, otherwise from
`resolution` of the x column times 0.9. -/
def widthFill (sp : StatParams) (data : DataFrame) : DataFrame :=
  if data.hasWidth then data
  else
    let w :=
      match sp.width with
      | some w0 =>
          if w0 ≠ 0 then w0 else resolution (data.rows.map (fun r => r.x)) * (9/10)
      | Option.none => resolution (data.rows.map (fun r => r.x)) * (9/10)
    { hasWidth := true, rows := data.rows.map (fun r => { r with width := w }) }

/-- The `countidx` column assigned at geom_dotplot.py line 117:
`range` from 1 to the group length inclusively. -/
def countidxSeries (n : ℕ) : List ℚ := (List.range n).map (fun i => ((i + 1 : ℕ) : ℚ))

/-- Lines 80-99 of geom_dotplot.py: the selected `stackdots` function applied
to a whole column (for the centered variants `np.max` ranges over the column
of the group). -/
def stackdotsSeries (k : StackKind) (a : List ℚ) : List ℚ :=
  match k with
  | StackKind.up => a.map (fun v => v - 1/2)
  | StackKind.down => a.map (fun v => -v + 1/2)
  | StackKind.center => a.map (fun v => v - 1 - maxOf (a.map (fun v => v - 1)) / 2)
  | StackKind.centerwhole =>
      a.map (fun v => v - 1 - ((⌊maxOf (a.map (fun v => v - 1)) / 2⌋ : ℤ) : ℚ))

/-- Writing the `countidx` and `stackpos` columns of one row. -/
def setCols (r : Row) (cp : ℚ × ℚ) : Row := { r with countidx := cp.1, stackpos := cp.2 }

/-- Lines 116-119 of geom_dotplot.py: the per-group `func`, assigning
`countidx` the values 1 to the group length and `stackpos` the value of
`stackdots` on the `countidx` column. -/
def stackRowsFunc (k : StackKind) (s : List Row) : List Row :=
  List.zipWith setCols s
    ((countidxSeries s.length).zip (stackdotsSeries k (countidxSeries s.length)))

/-- The bin-axis coordinate of a row. -/
def axisVal : Binaxis → Row → ℚ
  | Binaxis.x => fun r => r.x
  | Binaxis.y => fun r => r.y

/-- Lines 110-112 of geom_dotplot.py: the grouping key, the bin axis and
PANEL, plus group when `stackgroups` is false (a missing key component is
modelled as `none`). -/
def stackKey (stackgroups : Bool) (ax : Binaxis) (r : Row) : ℚ × ℤ × Option ℤ :=
  (axisVal ax r, r.PANEL, if stackgroups = true then Option.none else some r.group)

/-- The stacks (groups) that `setup_data` forms at geom_dotplot.py line 123. -/
def stackGroups (gp : GeomParams) (sp : StatParams) (rows : List Row) : List (List Row) :=
  (uniqueKeys (rows.map (stackKey gp.stackgroups sp.binaxis))).map
    (fun k => rows.filter (fun r => decide (stackKey gp.stackgroups sp.binaxis r = k)))

/-- Line 123 of geom_dotplot.py: `groupby_apply` of the replicated data over
the grouping variables with the stacking `func`. -/
def stackedRows (gp : GeomParams) (sp : StatParams) (k : StackKind) (rows : List Row) :
    List Row :=
  groupby_apply rows (stackKey gp.stackgroups sp.binaxis) (stackRowsFunc k)

/-- Lines 126-136 of geom_dotplot.py: the bounding columns when the bin axis
is x. -/
def bboxStepX (lo hi : ℚ) (rows : List Row) : List Row :=
  rows.map (fun r =>
    { r with
      xmin := r.x - r.binwidth / 2
      xmax := r.x + r.binwidth / 2
      ymin := lo
      ymax := hi
      y := 0 })

/-- Lines 137-152 of geom_dotplot.py: the bounding columns when the bin axis
is y; the indexing of the binwidth column at label 0 is the binwidth of the
first row of the frame. -/
def bboxStepY (lo hi : ℚ) (rows : List Row) : List Row :=
  let bw0 := rows.headI.binwidth
  let rows2 := groupby_apply rows (fun r => r.group) (fun g =>
    g.map (fun r =>
      { r with
        ymin := minOf (g.map (fun r2 => r2.y)) - bw0 / 2
        ymax := maxOf (g.map (fun r2 => r2.y)) + bw0 / 2 }))
  rows2.map (fun r =>
    { r with xmin := r.x + r.width * lo, xmax := r.x + r.width * hi })

/-- Lines 126-152 of geom_dotplot.py combined. -/
def bboxStep (sp : StatParams) (lo hi : ℚ) (rows : List Row) : List Row :=
  match sp.binaxis with
  | Binaxis.x => bboxStepX lo hi rows
  | Binaxis.y => bboxStepY lo hi rows

/-- The whole `setup_data` pipeline for a recognized stackdir. -/
def setupFrame (gp : GeomParams) (sp : StatParams) (k : StackKind) (lo hi : ℚ)
    (data : DataFrame) : DataFrame :=
  { hasWidth := true
    rows := bboxStep sp lo hi (stackedRows gp sp k (replicateRows (widthFill sp data).rows)) }

namespace geom_dotplot

/-- The method `geom_dotplot.setup_data` (geom_dotplot.py lines 57-154): the
issued warnings together with the returned frame; the frame is `none` when
the unrecognized-stackdir fall-through makes the source raise an
unbound-variable error instead of returning. -/
def setup_data (gp : GeomParams) (sp : StatParams) (data : DataFrame) :
    List Warning × Option DataFrame :=
  (warningsOf gp sp,
    match stackInfo gp.stackdir with
    | Option.none => Option.none
    | some (k, lo, hi) => some (setupFrame gp sp k lo hi data))

end geom_dotplot

/-- An ellipse patch, as created by the matplotlib `Ellipse` constructor from
a center and a width and height. -/
structure Ellipse where
  cx : ℚ
  cy : ℚ
  width : ℚ
  height : ℚ
  deriving DecidableEq

/-- The panel ranges returned by the `range` method of the coordinate
system: a pair of limits per axis. -/
structure Ranges where
  x : ℚ × ℚ
  y : ℚ × ℚ

/-- The function `np.ptp` on a two-value range: maximum minus minimum. -/
def ptp (p : ℚ × ℚ) : ℚ := max p.1 p.2 - min p.1 p.2

/-- The parameters `geom_dotplot.draw_group` reads from `params`. -/
structure DotDrawParams where
  dotsize : ℚ
  stackratio : ℚ
  binaxis : Binaxis

namespace geom_dotplot

/-- The method `geom_dotplot.draw_group` (geom_dotplot.py lines 156-198).
Here `transform` stands for the `transform` method of the coordinate system,
`ranges` for its `range` method on the panel parameters, and `ax_width`,
`ax_height` for the axes bounding-box dimensions.  The color resolution and
the matplotlib `PatchCollection` are library delegation; only the ellipse
geometry is kept.  The second component is the frame of the caller after the
call: the source only rebinds its local `data` name, so that frame is
returned unchanged. -/
def draw_group (transform : DataFrame → DataFrame) (ranges : Ranges)
    (ax_width ax_height : ℚ) (data : DataFrame) (p : DotDrawParams) :
    List Ellipse × DataFrame :=
  let d := transform data
  let factor := ax_width / ax_height * ptp ranges.y / ptp ranges.x
  let size := d.rows.headI.binwidth * p.dotsize
  let es :=
    match p.binaxis with
    | Binaxis.x =>
        d.rows.map (fun r =>
          { cx := r.x
            cy := r.y + size * factor * (r.stackpos * p.stackratio)
            width := size
            height := size * factor })
    | Binaxis.y =>
        d.rows.map (fun r =>
          { cx := r.x + size / factor * (r.stackpos * p.stackratio)
            cy := r.y
            width := size / factor
            height := size })
  (es, data)

end geom_dotplot

/-- A row of the frame `geom_pointrange.draw_group` receives; the `stroke`
field is `none` while that column is absent. -/
structure PRow where
  x : ℚ := 0
  y : ℚ := 0
  ymin : ℚ := 0
  ymax : ℚ := 0
  size : ℚ := 0
  stroke : Option ℚ := Option.none
  deriving DecidableEq

/-- A drawing effect of a delegate geom, recording the rows the delegate
receives. -/
inductive DrawEffect
  | linerange (rows : List PRow)
  | point (rows : List PRow)
  deriving DecidableEq

namespace geom_linerange

/-- Modelled from the spec: `geom_linerange.draw_group` belongs to the
excluded surrounding framework and is not in the excerpt; modelled as an
abstract drawing delegate whose effect records the rows it is given. -/
def draw_group (rows : List PRow) : List DrawEffect := [DrawEffect.linerange rows]

end geom_linerange

namespace geom_point

/-- Modelled from the spec: the `DEFAULT_AES` table of `geom_point` belongs
to the excluded surrounding framework and is not in the excerpt; this is its
stroke entry. -/
def DEFAULT_AES_stroke : ℚ := 1/2

/-- Modelled from the spec: `geom_point.draw_group` belongs to the excluded
surrounding framework and is not in the excerpt; modelled as an abstract
drawing delegate whose effect records the rows it is given. -/
def draw_group (rows : List PRow) : List DrawEffect := [DrawEffect.point rows]

end geom_point

namespace geom_pointrange

/-- The method `geom_pointrange.draw_group` (geom_pointrange.py lines
42-54): draw the line range on a copy of the data, then multiply the `size`
column in place by the `fatten` parameter, add the `stroke` column and draw
the points.  First component: the emitted drawing effects in order; second
component: the frame of the caller after the call (the source mutates that
frame in place, so it is the fattened frame). -/
def draw_group (rows : List PRow) (fatten : ℚ) : List DrawEffect × List PRow :=
  let eff1 := geom_linerange.draw_group rows
  let rows1 := rows.map (fun r => { r with size := r.size * fatten })
  let rows2 := rows1.map (fun r => { r with stroke := some geom_point.DEFAULT_AES_stroke })
  (eff1 ++ geom_point.draw_group rows2, rows2)

end geom_pointrange

/-- Definition following the words of the spec sentence behind claim C2: the
drawing effects of `geom_linerange.draw_group` applied to a copy of the data,
followed by those of `geom_point.draw_group` applied to the data with the
`size` column multiplied by the `fatten` parameter and a `stroke` column set
to the default stroke of `geom_point`. -/
def pointrange_composed_spec (rows : List PRow) (fatten : ℚ) : List DrawEffect :=
  geom_linerange.draw_group rows ++
    geom_point.draw_group (rows.map (fun r =>
      { r with size := r.size * fatten, stroke := some geom_point.DEFAULT_AES_stroke }))

/-- A concrete geom-parameter set for witnesses. -/
def gp0 : GeomParams :=
  { position := "identity"
    stackdir := some ("up")
    stackratio := 1
    dotsize := 1
    stackgroups := false }

/-- A concrete stat-parameter set for witnesses. -/
def sp0 : StatParams :=
  { method := "dotdensity", binpositions := "all", width := some (1 : ℚ), binaxis := Binaxis.x }

/-- A geom-parameter set with an unrecognized stackdir, for witnesses. -/
def gpBad : GeomParams :=
  { position := "identity"
    stackdir := some ("sideways")
    stackratio := 1
    dotsize := 1
    stackgroups := false }

/-- A concrete input row for witnesses. -/
def row0 : Row := { x := 1, count := 2, binwidth := 1, group := 1, PANEL := 1 }

/-- A concrete input frame for witnesses. -/
def data0 : DataFrame := { hasWidth := true, rows := [row0] }

/-- The first row of the frame `setup_data` returns on the witness input. -/
def r01 : Row :=
  { x := 1, y := 0, count := 2, binwidth := 1, group := 1, PANEL := 1
    countidx := 1, stackpos := 1/2, xmin := 1/2, xmax := 3/2, ymin := 0, ymax := 1 }

/-- The second row of the frame `setup_data` returns on the witness input. -/
def r02 : Row :=
  { x := 1, y := 0, count := 2, binwidth := 1, group := 1, PANEL := 1
    countidx := 2, stackpos := 3/2, xmin := 1/2, xmax := 3/2, ymin := 0, ymax := 1 }

/-- The frame `setup_data` returns on the witness input. -/
def out0 : DataFrame := { hasWidth := true, rows := [r01, r02] }

theorem countidxSeries_length (n : ℕ) : (countidxSeries n).length = n := by
  simp [countidxSeries]

theorem stackdotsSeries_length (k : StackKind) (a : List ℚ) :
    (stackdotsSeries k a).length = a.length := by
  cases k <;> simp [stackdotsSeries]

theorem zipWith_setCols_map_countidx :
    ∀ (s : List Row) (q : List (ℚ × ℚ)), s.length = q.length →
      (List.zipWith setCols s q).map (fun r => r.countidx) = q.map Prod.fst := by
  intro s
  induction s with
  | nil =>
    intro q h
    cases q with
    | nil => rfl
    | cons b m => simp at h
  | cons a l ih =>
    intro q h
    cases q with
    | nil => simp at h
    | cons b m =>
      have hm : l.length = m.length := by simpa using h
      simp [List.zipWith_cons_cons, setCols, ih m hm]

theorem zipWith_setCols_map_stackpos :
    ∀ (s : List Row) (q : List (ℚ × ℚ)), s.length = q.length →
      (List.zipWith setCols s q).map (fun r => r.stackpos) = q.map Prod.snd := by
  intro s
  induction s with
  | nil =>
    intro q h
    cases q with
    | nil => rfl
    | cons b m => simp at h
  | cons a l ih =>
    intro q h
    cases q with
    | nil => simp at h
    | cons b m =>
      have hm : l.length = m.length := by simpa using h
      simp [List.zipWith_cons_cons, setCols, ih m hm]

theorem stackRowsFunc_map_countidx (k : StackKind) (s : List Row) :
    (stackRowsFunc k s).map (fun r => r.countidx) = countidxSeries s.length := by
  have h1 : (countidxSeries s.length).length = s.length := countidxSeries_length s.length
  have h2 : (stackdotsSeries k (countidxSeries s.length)).length = s.length := by
    rw [stackdotsSeries_length, h1]
  have hz : s.length =
      ((countidxSeries s.length).zip (stackdotsSeries k (countidxSeries s.length))).length := by
    simp [List.length_zip, h1, h2]
  rw [stackRowsFunc, zipWith_setCols_map_countidx s _ hz]
  exact List.map_fst_zip _ _ (by simp [h1, h2])

theorem stackRowsFunc_map_stackpos (k : StackKind) (s : List Row) :
    (stackRowsFunc k s).map (fun r => r.stackpos) =
      stackdotsSeries k (countidxSeries s.length) := by
  have h1 : (countidxSeries s.length).length = s.length := countidxSeries_length s.length
  have h2 : (stackdotsSeries k (countidxSeries s.length)).length = s.length := by
    rw [stackdotsSeries_length, h1]
  have hz : s.length =
      ((countidxSeries s.length).zip (stackdotsSeries k (countidxSeries s.length))).length := by
    simp [List.length_zip, h1, h2]
  rw [stackRowsFunc, zipWith_setCols_map_stackpos s _ hz]
  exact List.map_snd_zip _ _ (by simp [h1, h2])

theorem replicateRows_singleton (r : Row) :
    replicateRows [r] = List.replicate (intTrunc r.count).toNat r := by
  simp [replicateRows]

theorem intTrunc_nonneg {q : ℚ} (h : 0 ≤ q) : 0 ≤ intTrunc q := by
  rw [intTrunc, if_pos h]
  exact Int.floor_nonneg.mpr h

theorem replicateRows_singleton_length (r : Row) (h : 0 ≤ r.count) :
    ((replicateRows [r]).length : ℤ) = intTrunc r.count := by
  rw [replicateRows_singleton, List.length_replicate]
  exact Int.toNat_of_nonneg (intTrunc_nonneg h)

theorem intTrunc_zero : intTrunc 0 = 0 := by
  rw [intTrunc, if_pos le_rfl]
  exact Int.floor_zero

theorem replicateRows_cons (r : Row) (rows : List Row) :
    replicateRows (r :: rows) = replicateRows [r] ++ replicateRows rows := by
  simp [replicateRows]

theorem map_const_eq_replicate {A B : Type} (l : List A) (b : B) :
    l.map (fun _ => b) = List.replicate l.length b := by
  induction l with
  | nil => rfl
  | cons a l2 ih => simp [ih, List.replicate_succ]

theorem setup_data_frame_of_stackInfo (gp : GeomParams) (sp : StatParams)
    (data : DataFrame) (k : StackKind) (lo hi : ℚ)
    (h : stackInfo gp.stackdir = some (k, lo, hi)) :
    (geom_dotplot.setup_data gp sp data).2 = some (setupFrame gp sp k lo hi data) := by
  simp [geom_dotplot.setup_data, h]

/-- Claim C1: for every recognized stackdir, `setup_data` gives each dot a
stack position determined by its 1-based `countidx` within its stack: `up`
(or a missing stackdir) gives `countidx - 0.5` with stack-axis range
`[0, 1]`; `down` gives `-countidx + 0.5` with range `[-1, 0]`; `center` gives
`(countidx - 1) - max(countidx - 1)/2` over the stack with range
`[-0.5, 0.5]`; `centerwhole` gives
`(countidx - 1) - floor(max(countidx - 1)/2)` over the stack with range
`[-0.5, 0.5]`. -/
theorem claim_C1_stackpos :
    stackInfo Option.none = some (StackKind.up, 0, 1) ∧
    stackInfo (some ("up")) = some (StackKind.up, 0, 1) ∧
    stackInfo (some ("down")) = some (StackKind.down, -1, 0) ∧
    stackInfo (some ("center")) = some (StackKind.center, -(1/2), 1/2) ∧
    stackInfo (some ("centerwhole")) = some (StackKind.centerwhole, -(1/2), 1/2) ∧
    (∀ (k : StackKind) (s : List Row),
      (stackRowsFunc k s).map (fun r => r.stackpos) =
        (match k with
          | StackKind.up =>
              ((stackRowsFunc k s).map (fun r => r.countidx)).map (fun c => c - 1/2)
          | StackKind.down =>
              ((stackRowsFunc k s).map (fun r => r.countidx)).map (fun c => -c + 1/2)
          | StackKind.center =>
              ((stackRowsFunc k s).map (fun r => r.countidx)).map (fun c =>
                c - 1 -
                  maxOf (((stackRowsFunc k s).map (fun r => r.countidx)).map
                    (fun c2 => c2 - 1)) / 2)
          | StackKind.centerwhole =>
              ((stackRowsFunc k s).map (fun r => r.countidx)).map (fun c =>
                c - 1 -
                  ((⌊maxOf (((stackRowsFunc k s).map (fun r => r.countidx)).map
                    (fun c2 => c2 - 1)) / 2⌋ : ℤ) : ℚ)))) ∧
    (∀ (gp : GeomParams) (sp : StatParams) (data : DataFrame) (k : StackKind) (lo hi : ℚ),
      stackInfo gp.stackdir = some (k, lo, hi) →
        (geom_dotplot.setup_data gp sp data).2 = some (setupFrame gp sp k lo hi data)) := by
  refine ⟨rfl, rfl, rfl, rfl, rfl, ?_, setup_data_frame_of_stackInfo⟩
  intro k s
  cases k <;>
    · rw [stackRowsFunc_map_stackpos, stackRowsFunc_map_countidx]
      rfl

/-- Witness for claim C1 at a concrete input. -/
theorem claim_C1_stackpos_witness :
    (geom_dotplot.setup_data gp0 sp0 data0).2 =
      some (setupFrame gp0 sp0 StackKind.up 0 1 data0) :=
  claim_C1_stackpos.2.2.2.2.2.2 gp0 sp0 data0 StackKind.up 0 1 (by decide)

/-- Claim C2: `geom_pointrange.draw_group` produces exactly the drawing
effects of `geom_linerange.draw_group` applied to a copy of the data followed
by `geom_point.draw_group` applied to the data with the `size` column
multiplied by the `fatten` parameter and a `stroke` column set to the default
stroke of `geom_point`. -/
theorem claim_C2_pointrange_composition (rows : List PRow) (fatten : ℚ) :
    (geom_pointrange.draw_group rows fatten).1 = pointrange_composed_spec rows fatten := by
  simp only [geom_pointrange.draw_group, pointrange_composed_spec, List.map_map]
  rfl

/-- Claim C3 counterexample: `geom_pointrange.draw_group` does mutate the
rows the caller passed; with one row of size 1 and the `fatten` parameter 4,
the frame of the caller after the call differs from the frame before it. -/
theorem claim_C3_counterexample :
    ¬ (geom_pointrange.draw_group [{ size := 1 }] 4).2 = [{ size := 1 }] := by
  with_unfolding_all decide

/-- Claim C3 amended: `geom_dotplot.draw_group` leaves the frame it is passed
unchanged, but `geom_pointrange.draw_group` mutates it, multiplying the
`size` column by the `fatten` parameter and adding a `stroke` column set to
the default stroke of `geom_point`; its line-range delegate receives a copy
taken before the mutation. -/
theorem claim_C3_amended :
    (∀ (transform : DataFrame → DataFrame) (ranges : Ranges) (aw ah : ℚ)
        (data : DataFrame) (p : DotDrawParams),
      (geom_dotplot.draw_group transform ranges aw ah data p).2 = data) ∧
    (∀ (rows : List PRow) (fatten : ℚ),
      (geom_pointrange.draw_group rows fatten).2 =
        rows.map (fun r =>
          { r with size := r.size * fatten,
                   stroke := some geom_point.DEFAULT_AES_stroke })) := by
  constructor
  · intro transform ranges aw ah data p
    rfl
  · intro rows fatten
    simp only [geom_pointrange.draw_group, List.map_map]
    rfl

/-- Claim C4: `setup_data` reports nonsensical parameter combinations only as
warnings, never as exceptions: the position warning is issued exactly when
the position parameter is the stack position, the stackgroups warning exactly
when `stackgroups` holds while the stat method is dotdensity with
binpositions bygroup; and the returned frame is the same as without the
warnings, namely unchanged when those parameters are replaced by arbitrary
other values. -/
theorem claim_C4_warnings (gp : GeomParams) (sp : StatParams) (data : DataFrame)
    (p2 m2 b2 : String) :
    (Warning.positionStack ∈ (geom_dotplot.setup_data gp sp data).1 ↔
      gp.position = "stack") ∧
    (Warning.stackgroupsDotdensity ∈ (geom_dotplot.setup_data gp sp data).1 ↔
      (gp.stackgroups = true ∧ sp.method = "dotdensity" ∧ sp.binpositions = "bygroup")) ∧
    (geom_dotplot.setup_data { gp with position := p2 }
        { sp with method := m2, binpositions := b2 } data).2 =
      (geom_dotplot.setup_data gp sp data).2 := by
  refine ⟨?_, ?_, rfl⟩
  · by_cases hpos : gp.position = "stack" <;>
      by_cases hsg : gp.stackgroups = true ∧ sp.method = "dotdensity" ∧
        sp.binpositions = "bygroup" <;>
      simp [geom_dotplot.setup_data, warningsOf, hpos, hsg]
  · by_cases hpos : gp.position = "stack" <;>
      by_cases hsg : gp.stackgroups = true ∧ sp.method = "dotdensity" ∧
        sp.binpositions = "bygroup" <;>
      simp [geom_dotplot.setup_data, warningsOf, hpos, hsg]

/-- Claim C5: each dot drawn by `geom_dotplot.draw_group` is an ellipse whose
size is corrected by the axes aspect ratio: with `size` the binwidth of the
first row times the dotsize parameter and `factor` the axes width over the
axes height times the y-range extent over the x-range extent, bin axis x
gives ellipse width `size` and height `size * factor` with center
`(x, y + height * stackpos * stackratio)`, and bin axis y gives width
`size / factor` and height `size` with center
`(x + width * stackpos * stackratio, y)`. -/
theorem claim_C5_ellipse_geometry (transform : DataFrame → DataFrame) (ranges : Ranges)
    (aw ah : ℚ) (data : DataFrame) (p : DotDrawParams) :
    (geom_dotplot.draw_group transform ranges aw ah data p).1 =
      (transform data).rows.map (fun r =>
        match p.binaxis with
        | Binaxis.x =>
            { cx := r.x
              cy := r.y +
                ((transform data).rows.headI.binwidth * p.dotsize *
                    (aw / ah * (ptp ranges.y / ptp ranges.x))) *
                  r.stackpos * p.stackratio
              width := (transform data).rows.headI.binwidth * p.dotsize
              height := (transform data).rows.headI.binwidth * p.dotsize *
                (aw / ah * (ptp ranges.y / ptp ranges.x)) }
        | Binaxis.y =>
            { cx := r.x +
                ((transform data).rows.headI.binwidth * p.dotsize /
                    (aw / ah * (ptp ranges.y / ptp ranges.x))) *
                  r.stackpos * p.stackratio
              cy := r.y
              width := (transform data).rows.headI.binwidth * p.dotsize /
                (aw / ah * (ptp ranges.y / ptp ranges.x))
              height := (transform data).rows.headI.binwidth * p.dotsize }) := by
  obtain ⟨ds, sr, ba⟩ := p
  cases ba with
  | x =>
    simp only [geom_dotplot.draw_group]
    apply List.map_congr_left
    intro r hr
    rw [Ellipse.mk.injEq]
    refine ⟨by ring_nf, by ring_nf, by ring_nf, by ring_nf⟩
  | y =>
    simp only [geom_dotplot.draw_group]
    apply List.map_congr_left
    intro r hr
    rw [Ellipse.mk.injEq]
    refine ⟨by ring_nf, by ring_nf, by ring_nf, by ring_nf⟩

/-- Claim C6: `setup_data` replicates each row with count `c` into exactly
`int(c)` rows (a row with count 0 yields no dots), and within each stack,
grouped by the bin axis and PANEL plus group when `stackgroups` is false,
the replicated rows receive consecutive `countidx` values 1, 2, up to the
stack size, in order. -/
theorem claim_C6_replication_countidx :
    (∀ r : Row, replicateRows [r] = List.replicate (intTrunc r.count).toNat r) ∧
    (∀ r : Row, 0 ≤ r.count → ((replicateRows [r]).length : ℤ) = intTrunc r.count) ∧
    (∀ r : Row, r.count = 0 → replicateRows [r] = []) ∧
    (∀ (r : Row) (rows : List Row),
      replicateRows (r :: rows) = replicateRows [r] ++ replicateRows rows) ∧
    (∀ (b : Bool) (ax : Binaxis) (r : Row),
      stackKey b ax r =
        (axisVal ax r, r.PANEL, if b = true then Option.none else some r.group)) ∧
    (∀ (gp : GeomParams) (sp : StatParams) (k : StackKind) (rows : List Row),
      stackedRows gp sp k rows = ((stackGroups gp sp rows).map (stackRowsFunc k)).flatten) ∧
    (∀ (gp : GeomParams) (sp : StatParams) (rows s : List Row),
      s ∈ stackGroups gp sp rows → ∀ k : StackKind,
        (stackRowsFunc k s).map (fun r => r.countidx) =
          (List.range s.length).map (fun i => ((i + 1 : ℕ) : ℚ))) ∧
    (∀ (gp : GeomParams) (sp : StatParams) (data : DataFrame) (k : StackKind) (lo hi : ℚ),
      stackInfo gp.stackdir = some (k, lo, hi) →
        (geom_dotplot.setup_data gp sp data).2 = some (setupFrame gp sp k lo hi data)) := by
  refine ⟨replicateRows_singleton, replicateRows_singleton_length, ?_, replicateRows_cons,
    fun b ax r => rfl, ?_, ?_, setup_data_frame_of_stackInfo⟩
  · intro r h
    simp [replicateRows_singleton, h, intTrunc_zero]
  · intro gp sp k rows
    simp [stackedRows, groupby_apply, stackGroups, List.map_map]
    rfl
  · intro gp sp rows s hs k
    exact stackRowsFunc_map_countidx k s

/-- Witness for claim C6 at a concrete input: the replication count and the
consecutive countidx values of a stack of the witness frame. -/
theorem claim_C6_replication_countidx_witness :
    ((replicateRows [row0]).length : ℤ) = intTrunc row0.count ∧
    (stackRowsFunc StackKind.up [row0, row0]).map (fun r => r.countidx) =
      (List.range ([row0, row0] : List Row).length).map (fun i => ((i + 1 : ℕ) : ℚ)) :=
  ⟨claim_C6_replication_countidx.2.1 row0 (by with_unfolding_all decide),
    claim_C6_replication_countidx.2.2.2.2.2.2.1 gp0 sp0 (replicateRows data0.rows)
      [row0, row0] (by with_unfolding_all decide) StackKind.up⟩

/-- Claim C7: `setup_data` is a stateless, deterministic function of the
frame and of the geom and stat parameters it reads: equal inputs give equal
outputs. -/
theorem claim_C7_deterministic (gp1 gp2 : GeomParams) (sp1 sp2 : StatParams)
    (d1 d2 : DataFrame) (hg : gp1 = gp2) (hs : sp1 = sp2) (hd : d1 = d2) :
    geom_dotplot.setup_data gp1 sp1 d1 = geom_dotplot.setup_data gp2 sp2 d2 := by
  subst hg
  subst hs
  subst hd
  rfl

/-- Witness for claim C7 at a concrete input. -/
theorem claim_C7_deterministic_witness :
    geom_dotplot.setup_data gp0 sp0 data0 = geom_dotplot.setup_data gp0 sp0 data0 :=
  claim_C7_deterministic gp0 gp0 sp0 sp0 data0 data0 rfl rfl rfl

/-- Claim C8: for a stackdir outside the recognized set, the source never
defines the stack function and the stack-axis bounds and raises an
unbound-variable error at their first use, so the total embedding of
`setup_data` produces no frame. -/
theorem claim_C8_invalid_stackdir (gp : GeomParams) (sp : StatParams) (data : DataFrame)
    (h : gp.stackdir ∉ ([Option.none, some ("up"), some ("down"), some ("center"),
      some ("centerwhole")] : List (Option String))) :
    (geom_dotplot.setup_data gp sp data).2 = Option.none := by
  have hsi : stackInfo gp.stackdir = Option.none := by
    cases hgs : gp.stackdir with
    | none =>
      exact absurd (by simp [hgs]) h
    | some s =>
      rw [hgs] at h
      have h1 : ¬ s = "up" := fun hc => h (by simp [hc])
      have h2 : ¬ s = "down" := fun hc => h (by simp [hc])
      have h3 : ¬ s = "center" := fun hc => h (by simp [hc])
      have h4 : ¬ s = "centerwhole" := fun hc => h (by simp [hc])
      simp [stackInfo, h1, h2, h3, h4]
  simp [geom_dotplot.setup_data, hsi]

/-- Witness for claim C8 at a concrete input with an unrecognized stackdir. -/
theorem claim_C8_invalid_stackdir_witness :
    (geom_dotplot.setup_data gpBad sp0 data0).2 = Option.none :=
  claim_C8_invalid_stackdir gpBad sp0 data0 (by decide)

/-- Claim C9: when the bin axis is x, every row of the frame returned by
`setup_data` satisfies `xmin = x - binwidth/2` and `xmax = x + binwidth/2`
(hence `xmax - xmin = binwidth`), `y = 0`, and `ymin` and `ymax` equal the
constant stack-axis bounds of the chosen stackdir, uniformly across all
rows. -/
theorem claim_C9_binaxis_x_bounds (gp : GeomParams) (sp : StatParams) (data : DataFrame)
    (out : DataFrame) (hax : sp.binaxis = Binaxis.x)
    (hout : (geom_dotplot.setup_data gp sp data).2 = some out) :
    ∀ r ∈ out.rows,
      r.xmin = r.x - r.binwidth / 2 ∧
      r.xmax = r.x + r.binwidth / 2 ∧
      r.xmax - r.xmin = r.binwidth ∧
      r.y = 0 ∧
      (∀ (k : StackKind) (lo hi : ℚ), stackInfo gp.stackdir = some (k, lo, hi) →
        r.ymin = lo ∧ r.ymax = hi) := by
  cases hsi : stackInfo gp.stackdir with
  | none =>
    simp [geom_dotplot.setup_data, hsi] at hout
  | some t =>
    obtain ⟨k, lo, hi⟩ := t
    simp only [geom_dotplot.setup_data, hsi] at hout
    rw [Option.some.injEq] at hout
    subst hout
    intro r hr
    simp only [setupFrame, bboxStep, hax] at hr
    rw [bboxStepX] at hr
    obtain ⟨pre, hpre, hr2⟩ := List.mem_map.mp hr
    subst hr2
    refine ⟨rfl, rfl, by ring, rfl, ?_⟩
    intro k2 lo2 hi2 h2
    rw [Option.some.injEq, Prod.mk.injEq, Prod.mk.injEq] at h2
    obtain ⟨-, hlo, hhi⟩ := h2
    subst hlo
    subst hhi
    exact ⟨rfl, rfl⟩

/-- Witness for claim C9 at a concrete input: the first returned row has the
stack-axis bounds 0 and 1 of the upward stackdir. -/
theorem claim_C9_binaxis_x_bounds_witness : r01.ymin = 0 ∧ r01.ymax = 1 :=
  (claim_C9_binaxis_x_bounds gp0 sp0 data0 out0 rfl (by with_unfolding_all decide) r01
      (by with_unfolding_all decide)).2.2.2.2
    StackKind.up 0 1 (by decide)

/-- Claim C10: `geom_dotplot.draw_group` sizes every dot from the first row
only: all ellipses of the group share one width and one height, the diameter
along the bin axis being the binwidth of the first row times the dotsize
parameter, even when the binwidth column varies across the rows. -/
theorem claim_C10_uniform_dot_size (transform : DataFrame → DataFrame) (ranges : Ranges)
    (aw ah : ℚ) (data : DataFrame) (p : DotDrawParams) :
    (geom_dotplot.draw_group transform ranges aw ah data p).1.map
        (fun e => (e.width, e.height)) =
      List.replicate (transform data).rows.length
        (match p.binaxis with
          | Binaxis.x =>
              ((transform data).rows.headI.binwidth * p.dotsize,
                (transform data).rows.headI.binwidth * p.dotsize *
                  (aw / ah * ptp ranges.y / ptp ranges.x))
          | Binaxis.y =>
              ((transform data).rows.headI.binwidth * p.dotsize /
                  (aw / ah * ptp ranges.y / ptp ranges.x),
                (transform data).rows.headI.binwidth * p.dotsize)) := by
  obtain ⟨ds, sr, ba⟩ := p
  cases ba with
  | x =>
    simp only [geom_dotplot.draw_group, List.map_map]
    exact map_const_eq_replicate ((transform data).rows)
      ((transform data).rows.headI.binwidth * ds,
        (transform data).rows.headI.binwidth * ds * (aw / ah * ptp ranges.y / ptp ranges.x))
  | y =>
    simp only [geom_dotplot.draw_group, List.map_map]
    exact map_const_eq_replicate ((transform data).rows)
      ((transform data).rows.headI.binwidth * ds / (aw / ah * ptp ranges.y / ptp ranges.x),
        (transform data).rows.headI.binwidth * ds)
